import Mathlib

/-!
Verification of the in-process core of a multi-agent customer-support
system: the event broker, the session-state registry, the coordinator's
gate state machine, and the escalation hand-off queue.

Each definition is a shallow embedding of the corresponding Python
source. Python dicts are modelled as association lists with unique keys
(insert-or-replace keeps the key's position, new keys append at the
back, matching CPython's ordered-dict semantics); floats used only for
threshold comparisons are modelled as rationals; wall-clock timestamps
are passed in as explicit parameters.
-/

namespace CustomerSupport

/-- Python `k in d` membership test on an association list. -/
def assocMem : List (String × α) → String → Bool
  | [], _ => false
  | kv :: rest, k => if kv.1 = k then true else assocMem rest k

/-- Python `d.get(k)` on an association list. -/
def assocGet : List (String × α) → String → Option α
  | [], _ => none
  | kv :: rest, k => if kv.1 = k then some kv.2 else assocGet rest k

/-- Python `d[k] = v`: replace the (under the dict invariant unique)
binding of the key in place when it exists, otherwise append the new
binding at the back (insertion-ordered dict). -/
def assocSet : List (String × α) → String → α → List (String × α)
  | [], k, v => [(k, v)]
  | kv :: rest, k, v => if kv.1 = k then (k, v) :: rest else kv :: assocSet rest k v

/-- Python `d.pop(k, None)`: the association list with every binding of
`k` removed (under the unique-keys invariant, exactly the one binding). -/
def assocRemove : List (String × α) → String → List (String × α)
  | [], _ => []
  | kv :: rest, k => if kv.1 = k then assocRemove rest k else kv :: assocRemove rest k

/-- The keys of an association list, in order. -/
def assocKeys (m : List (String × α)) : List String :=
  m.map Prod.fst

/-- Python `d.update(new)`: fold `d[k] = v` over the entries of `new`. -/
def assocUpdate (m new : List (String × α)) : List (String × α) :=
  new.foldl (fun acc kv => assocSet acc kv.1 kv.2) m

/-- Apply `f` to the last element of a list, if any: Python's mutation
of `xs[-1]`. -/
def modifyLast (f : α → α) : List α → List α
  | [] => []
  | [a] => [f a]
  | a :: b :: rest => a :: modifyLast f (b :: rest)

/-! ## Session registry data model (`context_store.py`) -/

/-- One message of a conversation (`context_store.Message`). Optional
fields default to `none`, mirroring the dataclass defaults. -/
structure Message where
  sender : String
  text : String
  timestamp : String
  intent_label : Option String := none
  sentiment_label : Option String := none
  entities : Option (List (String × String)) := none
deriving Repr, DecidableEq

/-- Per-session conversation state (`context_store.ConversationContext`). -/
structure ConversationContext where
  session_id : String
  start_time : String
  customer_email : Option String := none
  customer_id : Option String := none
  status : String := "ACTIVE"
  current_sentiment : Option String := none
  current_intent : Option String := none
  intent_confidence : Option Rat := none
  messages : List Message := []
  entities : List (String × String) := []
  escalation_reason : Option String := none
  operator_id : Option String := none
deriving Repr, DecidableEq

/-- `ConversationContext.add_message`: build a `Message` and append it
to the message list; returns the updated context and the new message. -/
def ConversationContext.add_message (ctx : ConversationContext)
    (sender text timestamp : String) : ConversationContext × Message :=
  let msg : Message := { sender := sender, text := text, timestamp := timestamp }
  ({ ctx with messages := ctx.messages ++ [msg] }, msg)

/-- Fold `add_message` over a list of `(sender, text, timestamp)`
triples: the effect of recording a whole dialogue in order. -/
def ConversationContext.addMessages (ctx : ConversationContext)
    (items : List (String × String × String)) : ConversationContext :=
  items.foldl (fun c it => (c.add_message it.1 it.2.1 it.2.2).1) ctx

/-- `ConversationContext.update_sentiment`: set `current_sentiment` and,
when the message list is nonempty, also set the LAST message's
`sentiment_label` (the source updates `messages[-1]` regardless of its
sender; the `confidence` argument is accepted but unused, as in the
source). -/
def ConversationContext.update_sentiment (ctx : ConversationContext)
    (sentiment : String) (confidence : Option Rat) : ConversationContext :=
  let _ := confidence
  { ctx with
    current_sentiment := some sentiment,
    messages := modifyLast (fun m => { m with sentiment_label := some sentiment }) ctx.messages }

/-- `ConversationContext.update_intent`: set `current_intent` and
`intent_confidence` and also set the LAST message's `intent_label`. -/
def ConversationContext.update_intent (ctx : ConversationContext)
    (intent : String) (confidence : Rat) : ConversationContext :=
  { ctx with
    current_intent := some intent,
    intent_confidence := some confidence,
    messages := modifyLast (fun m => { m with intent_label := some intent }) ctx.messages }

/-- `ConversationContext.merge_entities`: dict-update the context-level
entity map and also attach the new entities to the last message
(initialising its entity map from `None` to empty first). -/
def ConversationContext.merge_entities (ctx : ConversationContext)
    (entities : List (String × String)) : ConversationContext :=
  { ctx with
    entities := assocUpdate ctx.entities entities,
    messages := modifyLast
      (fun m => { m with entities := some (assocUpdate (m.entities.getD []) entities) })
      ctx.messages }

/-- `ConversationContext.escalate`: mark the conversation `ESCALATED`
and record the reason. -/
def ConversationContext.escalate (ctx : ConversationContext) (reason : String) :
    ConversationContext :=
  { ctx with status := "ESCALATED", escalation_reason := some reason }

/-- The in-memory session registry (`context_store.ContextStore`):
a dict from session id to context, plus statistics counters. -/
structure ContextStore where
  contexts : List (String × ConversationContext) := []
  sessions_created : Nat := 0
  sessions_active : Nat := 0
  sessions_ended : Nat := 0
  total_messages : Nat := 0
deriving Repr, DecidableEq

/-- `ContextStore.create_session`: raise `ValueError` when the id is
already present (the store is untouched on that path), otherwise insert
a fresh context and bump the counters. -/
def ContextStore.create_session (st : ContextStore) (session_id : String)
    (customer_email : Option String) (now : String) :
    Except String (ContextStore × ConversationContext) :=
  if assocMem st.contexts session_id then
    .error ("Session " ++ session_id ++ " already exists")
  else
    let context : ConversationContext :=
      { session_id := session_id, start_time := now, customer_email := customer_email }
    .ok ({ st with
            contexts := assocSet st.contexts session_id context,
            sessions_created := st.sessions_created + 1,
            sessions_active := st.sessions_active + 1 }, context)

/-- `ContextStore.get`: dictionary lookup, `None` when absent. -/
def ContextStore.get (st : ContextStore) (session_id : String) :
    Option ConversationContext :=
  assocGet st.contexts session_id

/-- `ContextStore.get_or_create`: return the existing context, or create
the session when it is absent (the create cannot fail on that branch). -/
def ContextStore.get_or_create (st : ContextStore) (session_id : String)
    (customer_email : Option String) (now : String) :
    Except String (ContextStore × ConversationContext) :=
  match st.get session_id with
  | some context => .ok (st, context)
  | none => st.create_session session_id customer_email now

/-- `ContextStore.add_message`: a no-op returning `None` on an unknown
session; otherwise append the message inside the stored context. -/
def ContextStore.add_message (st : ContextStore) (session_id sender text now : String) :
    ContextStore × Option Message :=
  match st.get session_id with
  | none => (st, none)
  | some context =>
    let (context, msg) := context.add_message sender text now
    ({ st with
        contexts := assocSet st.contexts session_id context,
        total_messages := st.total_messages + 1 }, some msg)

/-- `ContextStore.delete`: `dict.pop(session_id, None)`; counters move
only when a context was actually removed. -/
def ContextStore.delete (st : ContextStore) (session_id : String) :
    ContextStore × Option ConversationContext :=
  match st.get session_id with
  | none => (st, none)
  | some context =>
    ({ st with
        contexts := assocRemove st.contexts session_id,
        sessions_active := st.sessions_active - 1,
        sessions_ended := st.sessions_ended + 1 }, some context)

/-- Concrete fixture: the fresh context created for session `"s"`. -/
def sampleContext : ConversationContext := { session_id := "s", start_time := "t0" }

/-- Concrete fixture: the store after creating session `"s"` in an
empty store (used by witnesses and counterexamples). -/
def sampleStore : ContextStore :=
  { contexts := [("s", sampleContext)], sessions_created := 1, sessions_active := 1 }

/-- Concrete fixture: session `"s"` after a USER message followed by an
AGENT reply. -/
def sampleDialogue : ConversationContext :=
  ConversationContext.addMessages sampleContext [("USER", "hi", "t1"), ("AGENT", "hello", "t2")]

/-- A registry operation, for stating invariants over arbitrary
operation sequences (create / get / delete as exposed by the store). -/
inductive StoreOp where
  | create (session_id : String) (customer_email : Option String) (now : String)
  | getOp (session_id : String)
  | deleteOp (session_id : String)
deriving Repr, DecidableEq

/-- Run one registry operation; a failing `create_session` leaves the
store unchanged (the exception propagates to the caller before any
mutation), and `get` never mutates. -/
def ContextStore.step (st : ContextStore) : StoreOp → ContextStore
  | .create session_id customer_email now =>
    match st.create_session session_id customer_email now with
    | .ok (st', _) => st'
    | .error _ => st
  | .getOp _ => st
  | .deleteOp session_id => (st.delete session_id).1

/-- Run a sequence of registry operations. -/
def ContextStore.runOps (st : ContextStore) (ops : List StoreOp) : ContextStore :=
  ops.foldl ContextStore.step st

/-! ## Published events

The coordinator and the escalation agent communicate by `bus.publish`
calls. For stating their contracts we record, for each publish, the
event type string together with the payload fields the claims are
about (the session id, the escalation reason, and the `assigned` flag
of operator-assignment results); fields absent from a payload are
`none`. -/

/-- One `bus.publish(event_type, payload)` call, projected to the
payload fields relevant to the verified contracts. -/
structure Published where
  eventType : String
  sessionId : Option String := none
  reason : Option String := none
  assignedFlag : Option Bool := none
deriving Repr, DecidableEq

/-! ## Coordinator gate state machine (`agents/coordinator.py`) -/

/-- `CoordinatorAgent.SENTIMENT_ESCALATION_LABELS`. -/
def SENTIMENT_ESCALATION_LABELS : List String := ["NEGATIVE", "ANGRY"]

/-- `CoordinatorAgent.INTENT_CONFIDENCE_THRESHOLD` (the float `0.7`). -/
def INTENT_CONFIDENCE_THRESHOLD : Rat := 7 / 10

/-- `CoordinatorAgent.INTENT_ROUTING`: intent → downstream task name. -/
def INTENT_ROUTING : List (String × String) :=
  [("track_order", "TASK_HANDLE_ORDER_TRACKING"),
   ("process_return", "TASK_HANDLE_RETURNS"),
   ("general_inquiry", "TASK_HANDLE_GENERAL_INQUIRY"),
   ("update_account", "TASK_HANDLE_ACCOUNT")]

/-- The coordinator's mutable statistics (`CoordinatorAgent.stats`). -/
structure CoordinatorAgent where
  messages_processed : Nat := 0
  escalations : Nat := 0
  successful_routes : Nat := 0
  errors : Nat := 0
deriving Repr, DecidableEq

/-- `CoordinatorAgent._escalate`: bump the escalation counter, mark the
context `ESCALATED` when the session exists, and publish one
`TASK_ESCALATE` event carrying the session id and the reason. -/
def CoordinatorAgent.escalateSession (co : CoordinatorAgent) (st : ContextStore)
    (session_id reason : String) :
    CoordinatorAgent × ContextStore × List Published :=
  let co := { co with escalations := co.escalations + 1 }
  let st :=
    match st.get session_id with
    | some context => { st with contexts := assocSet st.contexts session_id (context.escalate reason) }
    | none => st
  (co, st,
   [{ eventType := "TASK_ESCALATE", sessionId := some session_id, reason := some reason }])

/-- `CoordinatorAgent._route_to_agent`: look the intent up in the
routing table; an unknown intent escalates with reason
`UNKNOWN_INTENT`, a known intent publishes the mapped task (whose
payload is the full session snapshot, hence carries the session id). -/
def CoordinatorAgent.route_to_agent (co : CoordinatorAgent) (st : ContextStore)
    (session_id intent : String) :
    CoordinatorAgent × ContextStore × List Published :=
  match assocGet INTENT_ROUTING intent with
  | none => co.escalateSession st session_id "UNKNOWN_INTENT"
  | some task_name =>
    ({ co with successful_routes := co.successful_routes + 1 }, st,
     [{ eventType := task_name, sessionId := some session_id }])

/-- Payload of a `RESULT_SENTIMENT_RECOGNIZED` event; `confidence` is
optional and defaulted to `0.0` by the handler. -/
structure SentimentPayload where
  session_id : String
  sentiment : String
  confidence : Option Rat := none
deriving Repr, DecidableEq

/-- `CoordinatorAgent.handle_sentiment_result` (Gate 1): an unknown
session is a logged no-op; otherwise update the context's sentiment,
then either escalate with reason `NEGATIVE_SENTIMENT_<label>` when the
label is in the escalation set, or publish one
`TASK_RECOGNIZE_INTENT` task. -/
def CoordinatorAgent.handle_sentiment_result (co : CoordinatorAgent)
    (st : ContextStore) (p : SentimentPayload) :
    CoordinatorAgent × ContextStore × List Published :=
  match st.get p.session_id with
  | none => (co, st, [])
  | some context =>
    let context := context.update_sentiment p.sentiment (some (p.confidence.getD 0))
    let st := { st with contexts := assocSet st.contexts p.session_id context }
    if p.sentiment ∈ SENTIMENT_ESCALATION_LABELS then
      co.escalateSession st p.session_id ("NEGATIVE_SENTIMENT_" ++ p.sentiment)
    else
      (co, st,
       [{ eventType := "TASK_RECOGNIZE_INTENT", sessionId := some p.session_id }])

/-- Payload of a `RESULT_INTENT_RECOGNIZED` event; `entities` is
optional and defaulted to the empty dict by the handler. -/
structure IntentPayload where
  session_id : String
  intent : String
  confidence : Rat
  entities : List (String × String) := []
deriving Repr, DecidableEq

/-- `CoordinatorAgent.handle_intent_result` (Gate 2): an unknown
session is a logged no-op; otherwise update intent (and merge entities
when the payload carries a nonempty dict), escalate with reason
`LOW_INTENT_CONFIDENCE` when `confidence < INTENT_CONFIDENCE_THRESHOLD`
(strict comparison), and otherwise route via the routing table. -/
def CoordinatorAgent.handle_intent_result (co : CoordinatorAgent)
    (st : ContextStore) (p : IntentPayload) :
    CoordinatorAgent × ContextStore × List Published :=
  match st.get p.session_id with
  | none => (co, st, [])
  | some context =>
    let context := context.update_intent p.intent p.confidence
    let context := if p.entities.isEmpty then context else context.merge_entities p.entities
    let st := { st with contexts := assocSet st.contexts p.session_id context }
    if p.confidence < INTENT_CONFIDENCE_THRESHOLD then
      co.escalateSession st p.session_id "LOW_INTENT_CONFIDENCE"
    else
      co.route_to_agent st p.session_id p.intent

/-! ## Escalation queue (`agents/escalation_agent.py`)

In the source an escalation record is a Python dict that is referenced
both from the deque and from the `active_escalations` map; in-place
mutation of the record at assignment time is visible through every
reference to the same object. The field `rid` below models that object
identity: each `handle_escalation` call allocates a fresh `rid`, and
the in-place status update performed by `assign_to_operator` is
replayed onto every state component holding a record with that `rid`. -/

/-- One escalation record (the dict built by
`EscalationAgent.handle_escalation`). -/
structure EscalationRecord where
  rid : Nat
  session_id : String
  reason : String
  priority : String
  escalated_at : String
  status : String
  operator_id : Option String := none
  assigned_at : Option String := none
  queue_position : Nat
deriving Repr, DecidableEq

/-- The escalation agent's mutable state: the deque (front of the
queue at the head of the list), the active-escalations map, the object
allocator, and the statistics counters. `queued` and `assigned` are
integers because the source decrements them without a floor. -/
structure EscalationAgent where
  queue : List EscalationRecord := []
  active_escalations : List (String × EscalationRecord) := []
  next_rid : Nat := 0
  total_escalations : Nat := 0
  queued : Int := 0
  assigned : Int := 0
  resolved : Nat := 0
deriving Repr, DecidableEq

/-- `EscalationAgent.handle_escalation`: build a `QUEUED` record,
insert it at the front of the deque when `priority == 'HIGH'` and at
the back otherwise, store it (insert-or-replace) in the
active-escalations map under its session id, bump statistics, and
publish the queued-confirmation and operator-notification events. The
`priority` payload field defaults to `'NORMAL'`. -/
def EscalationAgent.handle_escalation (ag : EscalationAgent)
    (session_id reason : String) (priority? : Option String) (now : String) :
    EscalationAgent × List Published :=
  let priority := priority?.getD "NORMAL"
  let escalation : EscalationRecord :=
    { rid := ag.next_rid, session_id := session_id, reason := reason,
      priority := priority, escalated_at := now, status := "QUEUED",
      queue_position := ag.queue.length + 1 }
  let queue :=
    if priority = "HIGH" then escalation :: ag.queue else ag.queue ++ [escalation]
  ({ ag with
      queue := queue,
      active_escalations := assocSet ag.active_escalations session_id escalation,
      next_rid := ag.next_rid + 1,
      total_escalations := ag.total_escalations + 1,
      queued := ag.queued + 1 },
   [{ eventType := "RESULT_ESCALATION_COMPLETE", sessionId := some session_id },
    { eventType := "NOTIFICATION_OPERATOR", sessionId := some session_id,
      reason := some reason }])

/-- `EscalationAgent.assign_to_operator`: on an empty queue publish a
soft `QUEUE_EMPTY` failure; otherwise pop the record at the front of
the deque, mutate it in place to `ASSIGNED` (the mutation is visible
through the active-escalations map whenever it still references the
same object, i.e. the same `rid`), adjust statistics and publish the
assignment confirmation. -/
def EscalationAgent.assign_to_operator (ag : EscalationAgent)
    (operator_id now : String) : EscalationAgent × List Published :=
  match ag.queue with
  | [] =>
    (ag,
     [{ eventType := "RESULT_OPERATOR_ASSIGNED", reason := some "QUEUE_EMPTY",
        assignedFlag := some false }])
  | escalation :: rest =>
    let escalation :=
      { escalation with
          status := "ASSIGNED", operator_id := some operator_id,
          assigned_at := some now }
    let active := ag.active_escalations.map
      (fun kv => if kv.2.rid = escalation.rid then (kv.1, escalation) else kv)
    ({ ag with
        queue := rest,
        active_escalations := active,
        queued := ag.queued - 1,
        assigned := ag.assigned + 1 },
     [{ eventType := "RESULT_OPERATOR_ASSIGNED",
        sessionId := some escalation.session_id,
        reason := some escalation.reason, assignedFlag := some true }])

/-- `EscalationAgent.handle_resolution`: when the session is not in the
active-escalations map, log and return with no state change and no
publication; otherwise pop it from the map, adjust statistics, and
publish the resolution confirmation. The queue deque is never touched. -/
def EscalationAgent.handle_resolution (ag : EscalationAgent)
    (session_id operator_id : String) : EscalationAgent × List Published :=
  let _ := operator_id
  if assocMem ag.active_escalations session_id then
    ({ ag with
        active_escalations := assocRemove ag.active_escalations session_id,
        assigned := ag.assigned - 1,
        resolved := ag.resolved + 1 },
     [{ eventType := "RESULT_ESCALATION_RESOLVED", sessionId := some session_id }])
  else
    (ag, [])

/-- An escalation-agent input event, for stating invariants over
arbitrary event sequences. -/
inductive EscOp where
  | escalateOp (session_id reason : String) (priority? : Option String) (now : String)
  | operatorAvailable (operator_id now : String)
  | resolveOp (session_id operator_id : String)
deriving Repr, DecidableEq

/-- Dispatch one input event to its handler. -/
def EscalationAgent.step (ag : EscalationAgent) : EscOp → EscalationAgent × List Published
  | .escalateOp session_id reason priority? now =>
    ag.handle_escalation session_id reason priority? now
  | .operatorAvailable operator_id now => ag.assign_to_operator operator_id now
  | .resolveOp session_id operator_id => ag.handle_resolution session_id operator_id

/-- Run a sequence of input events, keeping only the final state. -/
def EscalationAgent.runOps (ag : EscalationAgent) (ops : List EscOp) : EscalationAgent :=
  ops.foldl (fun a op => (a.step op).1) ag

/-- The records popped from the queue (in pop order) while running a
sequence of input events: the assignment trace. -/
def EscalationAgent.runAssigned : EscalationAgent → List EscOp → List EscalationRecord
  | _, [] => []
  | ag, op :: rest =>
    let popped :=
      match op, ag.queue with
      | .operatorAvailable _ _, r :: _ => [r]
      | _, _ => []
    popped ++ EscalationAgent.runAssigned (ag.step op).1 rest

/-- The session ids of the non-`HIGH`-priority records of a record
list, in order. -/
def nonHighSessions : List EscalationRecord → List String
  | [] => []
  | r :: rest =>
    if r.priority = "HIGH" then nonHighSessions rest
    else r.session_id :: nonHighSessions rest

/-- The session ids of the non-`HIGH`-priority escalation requests of
an input-event sequence, in arrival order. -/
def arrivalNonHigh : List EscOp → List String
  | [] => []
  | .escalateOp s _ p? _ :: rest =>
    if p?.getD "NORMAL" = "HIGH" then arrivalNonHigh rest else s :: arrivalNonHigh rest
  | _ :: rest => arrivalNonHigh rest

/-- Concrete fixture: enqueue A(NORMAL), B(HIGH), C(NORMAL) in that
order, then serve three operator-available events. -/
def fifoExampleOps : List EscOp :=
  [.escalateOp "A" "rA" none "t1",
   .escalateOp "B" "rB" (some "HIGH") "t2",
   .escalateOp "C" "rC" none "t3",
   .operatorAvailable "op1" "t4",
   .operatorAvailable "op2" "t5",
   .operatorAvailable "op3" "t6"]

/-- Concrete fixture: the escalation agent holding one `QUEUED` record
for session `"s"` (the state after a single `NORMAL` escalation). -/
def sampleEscalationAgent : EscalationAgent :=
  (EscalationAgent.handle_escalation {} "s" "LOW_INTENT_CONFIDENCE" none "t1").1

/-! ## Event broker (`event_bus.py`)

The broker is modelled parametrically in the type `η` of handler
identities. What a handler does when invoked is supplied to `publish`
as a behaviour function `run : η → HandlerResult η`: the handler
either returns normally (`ok`) or raises (`raised`), in both cases
after issuing a list of re-entrant `subscribe`/`unsubscribe` calls
against the same bus (raising after partial effects is allowed, as in
Python). `publish` additionally returns the list of handlers it
invoked, in invocation order, so that delivery contracts can be
stated; the Python method returns only the `Event`. -/

/-- `event_bus.Event`, with the uuid `event_id` omitted and the
payload kept opaque. -/
structure Event where
  event_type : String
  payload : String
  timestamp : String
deriving Repr, DecidableEq

/-- A re-entrant bus call a handler may issue during delivery. -/
inductive BusAction (η : Type) where
  | subscribeAct (event_type : String) (callback : η)
  | unsubscribeAct (event_type : String) (callback : η)
deriving Repr, DecidableEq

/-- What one handler invocation does: its re-entrant bus calls, and
whether it returns normally or raises. -/
inductive HandlerResult (η : Type) where
  | ok (actions : List (BusAction η))
  | raised (actions : List (BusAction η))
deriving Repr, DecidableEq

/-- `event_bus.EventBus`: the subscriber table plus the statistics
counters; `warnings` counts the "No subscribers for event type"
diagnostics logged by `publish`. -/
structure EventBus (η : Type) where
  subscribers : List (String × List η) := []
  published : Nat := 0
  delivered : Nat := 0
  errors : Nat := 0
  warnings : Nat := 0
deriving Repr, DecidableEq

/-- The subscriber list currently registered for an event type
(`self._subscribers.get(event_type, [])`). -/
def EventBus.subscribersOf (bus : EventBus η) (event_type : String) : List η :=
  (assocGet bus.subscribers event_type).getD []

/-- `EventBus.subscribe`: create the subscriber list for the type when
missing, then append the callback at the back. -/
def EventBus.subscribe (bus : EventBus η) (event_type : String) (callback : η) :
    EventBus η :=
  { bus with
    subscribers :=
      assocSet bus.subscribers event_type (bus.subscribersOf event_type ++ [callback]) }

/-- `EventBus.unsubscribe`: when the type has a subscriber list, remove
the first occurrence of the callback (a missing callback only logs). -/
def EventBus.unsubscribe [DecidableEq η] (bus : EventBus η) (event_type : String)
    (callback : η) : EventBus η :=
  match assocGet bus.subscribers event_type with
  | none => bus
  | some callbacks =>
    { bus with
      subscribers := assocSet bus.subscribers event_type (callbacks.erase callback) }

/-- Replay one re-entrant bus call. -/
def EventBus.applyAction [DecidableEq η] (bus : EventBus η) :
    BusAction η → EventBus η
  | .subscribeAct t h => bus.subscribe t h
  | .unsubscribeAct t h => bus.unsubscribe t h

/-- Replay the re-entrant bus calls a handler issued, in order. -/
def EventBus.applyActions [DecidableEq η] (bus : EventBus η)
    (actions : List (BusAction η)) : EventBus η :=
  actions.foldl EventBus.applyAction bus

/-- The delivery loop of `publish`: invoke each handler of the snapshot
in order, replaying its re-entrant bus calls against the live table,
then counting it as `delivered` when it returned normally and as an
`error` when it raised (the exception is caught, so the loop always
continues to the next subscriber). -/
def EventBus.deliverTo [DecidableEq η] (bus : EventBus η)
    (run : η → HandlerResult η) (snapshot : List η) : EventBus η :=
  snapshot.foldl
    (fun b callback =>
      match run callback with
      | .ok actions =>
        let b := b.applyActions actions
        { b with delivered := b.delivered + 1 }
      | .raised actions =>
        let b := b.applyActions actions
        { b with errors := b.errors + 1 })
    bus

/-- `EventBus.publish`: construct the `Event`, bump `published`, take a
snapshot of the subscriber list for the type (the `.copy()` taken
under the lock), log a diagnostic when the snapshot is empty, and
otherwise run the delivery loop over the snapshot. Returns the updated
bus, the constructed `Event`, and the list of handlers invoked in
invocation order (the Python method returns only the `Event`; the
invocation list is returned here so delivery contracts can be
stated). -/
def EventBus.publish [DecidableEq η] (bus : EventBus η)
    (run : η → HandlerResult η) (event_type payload now : String) :
    EventBus η × Event × List η :=
  let event : Event := { event_type := event_type, payload := payload, timestamp := now }
  let bus := { bus with published := bus.published + 1 }
  let snapshot := bus.subscribersOf event_type
  if snapshot.isEmpty then
    ({ bus with warnings := bus.warnings + 1 }, event, [])
  else
    (bus.deliverTo run snapshot, event, snapshot)

/-- Concrete fixture: a bus (over `Nat` handler identities) with
handlers `1` and `2` subscribed, in that order, to event type `"T"`. -/
def sampleBus : EventBus Nat :=
  (EventBus.subscribe {} "T" 1).subscribe "T" 2

/-- Concrete fixture behaviour: handler `1` raises, every other
handler returns normally; nobody issues re-entrant bus calls. -/
def sampleRunFault : Nat → HandlerResult Nat :=
  fun h => if h = 1 then .raised [] else .ok []

/-- Concrete fixture behaviour: handler `1` unsubscribes handler `2`
and subscribes a new handler `99` from inside delivery. -/
def sampleRunReentrant : Nat → HandlerResult Nat :=
  fun h => if h = 1 then .ok [.unsubscribeAct "T" 2, .subscribeAct "T" 99] else .ok []

/-! ## Association-list lemmas -/

theorem assocGet_assocSet_self (m : List (String × α)) (k : String) (v : α) :
    assocGet (assocSet m k v) k = some v := by
  induction m with
  | nil => simp [assocSet, assocGet]
  | cons kv rest ih =>
    by_cases h : kv.1 = k
    · simp [assocSet, assocGet, h]
    · simp [assocSet, assocGet, h, ih]

theorem assocMem_of_assocGet_eq_some (m : List (String × α)) (k : String) (v : α)
    (h : assocGet m k = some v) : assocMem m k = true := by
  induction m with
  | nil => simp [assocGet] at h
  | cons kv rest ih =>
    by_cases hk : kv.1 = k
    · simp [assocMem, hk]
    · simp [assocGet, hk] at h
      simp [assocMem, hk, ih h]

theorem assocMem_assocRemove_self (m : List (String × α)) (k : String) :
    assocMem (assocRemove m k) k = false := by
  induction m with
  | nil => rfl
  | cons kv rest ih =>
    by_cases h : kv.1 = k
    · simp [assocRemove, h, ih]
    · simp [assocRemove, assocMem, h, ih]

theorem assocRemove_sublist (m : List (String × α)) (k : String) :
    (assocRemove m k).Sublist m := by
  induction m with
  | nil => simp [assocRemove]
  | cons kv rest ih =>
    by_cases h : kv.1 = k
    · simp only [assocRemove, h, if_pos]
      exact ih.cons kv
    · simp only [assocRemove, h, if_neg, not_false_iff]
      exact ih.cons₂ kv

theorem mem_assocKeys_assocSet (m : List (String × α)) (k k' : String) (v : α) :
    k' ∈ assocKeys (assocSet m k v) ↔ k' ∈ assocKeys m ∨ k' = k := by
  induction m with
  | nil => simp [assocSet, assocKeys]
  | cons kv rest ih =>
    by_cases h : kv.1 = k
    · subst h
      simp [assocSet, assocKeys]
      tauto
    · have hset : assocSet (kv :: rest) k v = kv :: assocSet rest k v := by
        simp [assocSet, h]
      rw [hset]
      simp only [assocKeys, List.map_cons, List.mem_cons] at ih ⊢
      tauto

theorem nodup_assocKeys_assocSet (m : List (String × α)) (k : String) (v : α)
    (h : (assocKeys m).Nodup) : (assocKeys (assocSet m k v)).Nodup := by
  induction m with
  | nil => simp [assocSet, assocKeys]
  | cons kv rest ih =>
    rw [assocKeys, List.map_cons, List.nodup_cons] at h
    by_cases hk : kv.1 = k
    · subst hk
      simpa [assocSet, assocKeys] using h
    · have hrest := ih h.2
      simp only [assocSet, hk, if_neg, not_false_iff, assocKeys, List.map_cons,
        List.nodup_cons]
      refine ⟨?_, hrest⟩
      intro hmem
      rcases (mem_assocKeys_assocSet rest k kv.1 v).1 hmem with h1 | h2
      · exact h.1 h1
      · exact hk h2

theorem assocKeys_map_of_fst_eq (m : List (String × α)) (f : String × α → String × α)
    (hf : ∀ kv, (f kv).1 = kv.1) : assocKeys (m.map f) = assocKeys m := by
  induction m with
  | nil => rfl
  | cons kv rest ih =>
    simp only [assocKeys, List.map_cons] at *
    rw [hf kv, ih]

/-! ## Message-list lemmas -/

theorem modifyLast_append_singleton (f : α → α) (ms : List α) (m : α) :
    modifyLast f (ms ++ [m]) = ms ++ [f m] := by
  induction ms with
  | nil => rfl
  | cons a rest ih =>
    cases rest with
    | nil => rfl
    | cons b rest' =>
      have hstep : modifyLast f ((a :: b :: rest') ++ [m]) =
          a :: modifyLast f ((b :: rest') ++ [m]) := rfl
      rw [hstep, ih]
      rfl

theorem addMessages_messages (ctx : ConversationContext)
    (items : List (String × String × String)) :
    (ConversationContext.addMessages ctx items).messages =
      ctx.messages ++ items.map
        (fun it => { sender := it.1, text := it.2.1, timestamp := it.2.2 : Message }) := by
  induction items generalizing ctx with
  | nil => simp [ConversationContext.addMessages]
  | cons it rest ih =>
    have hcons : ConversationContext.addMessages ctx (it :: rest) =
        ConversationContext.addMessages ((ctx.add_message it.1 it.2.1 it.2.2).1) rest := rfl
    rw [hcons, ih]
    simp [ConversationContext.add_message]

/-! ## Broker lemmas -/

theorem applyAction_counters [DecidableEq η] (bus : EventBus η) (a : BusAction η) :
    (bus.applyAction a).delivered = bus.delivered ∧
    (bus.applyAction a).errors = bus.errors ∧
    (bus.applyAction a).published = bus.published ∧
    (bus.applyAction a).warnings = bus.warnings := by
  cases a with
  | subscribeAct t h => exact ⟨rfl, rfl, rfl, rfl⟩
  | unsubscribeAct t h =>
    simp only [EventBus.applyAction, EventBus.unsubscribe]
    cases hg : assocGet bus.subscribers t <;> simp

theorem applyActions_counters [DecidableEq η] (bus : EventBus η)
    (acts : List (BusAction η)) :
    (bus.applyActions acts).delivered = bus.delivered ∧
    (bus.applyActions acts).errors = bus.errors ∧
    (bus.applyActions acts).published = bus.published ∧
    (bus.applyActions acts).warnings = bus.warnings := by
  induction acts generalizing bus with
  | nil => exact ⟨rfl, rfl, rfl, rfl⟩
  | cons a rest ih =>
    have hcons : bus.applyActions (a :: rest) = (bus.applyAction a).applyActions rest := rfl
    have h1 := ih (bus.applyAction a)
    have h2 := applyAction_counters bus a
    rw [hcons]
    exact ⟨h1.1.trans h2.1, h1.2.1.trans h2.2.1, h1.2.2.1.trans h2.2.2.1,
      h1.2.2.2.trans h2.2.2.2⟩

/-! ## Registry lemmas -/

theorem nodup_keys_store_step (st : ContextStore) (op : StoreOp)
    (h : (assocKeys st.contexts).Nodup) :
    (assocKeys (st.step op).contexts).Nodup := by
  cases op with
  | create sid email now =>
    simp only [ContextStore.step, ContextStore.create_session]
    cases hmem : assocMem st.contexts sid with
    | true => simpa [hmem] using h
    | false =>
      simp only [hmem, Bool.false_eq_true, if_neg, not_false_iff]
      exact nodup_assocKeys_assocSet _ _ _ h
  | getOp sid => exact h
  | deleteOp sid =>
    simp only [ContextStore.step, ContextStore.delete]
    cases hg : st.get sid with
    | none => simpa [hg] using h
    | some c =>
      simp only [hg]
      exact List.Sublist.nodup ((assocRemove_sublist st.contexts sid).map Prod.fst) h

theorem nodup_keys_store_runOps (st : ContextStore) (ops : List StoreOp)
    (h : (assocKeys st.contexts).Nodup) :
    (assocKeys (st.runOps ops).contexts).Nodup := by
  induction ops generalizing st with
  | nil => exact h
  | cons op rest ih =>
    have hcons : st.runOps (op :: rest) = (st.step op).runOps rest := rfl
    rw [hcons]
    exact ih _ (nodup_keys_store_step st op h)

/-! ## Claim theorems -/

/-- C7: `create_session` on an id already present fails with the
explicit already-exists error and leaves the registry state completely
unchanged; and over every sequence of create/get/delete operations the
registry's key list stays duplicate-free, so it never holds two
contexts for the same key. -/
theorem create_session_duplicate_is_error (st : ContextStore) (sid : String)
    (email : Option String) (now : String) (ctx : ConversationContext)
    (hget : st.get sid = some ctx) :
    st.create_session sid email now = .error ("Session " ++ sid ++ " already exists") ∧
    st.step (.create sid email now) = st ∧
    (∀ (st0 : ContextStore) (ops : List StoreOp), (assocKeys st0.contexts).Nodup →
      (assocKeys (st0.runOps ops).contexts).Nodup) := by
  have hmem : assocMem st.contexts sid = true :=
    assocMem_of_assocGet_eq_some st.contexts sid ctx hget
  refine ⟨?_, ?_, fun st0 ops h0 => nodup_keys_store_runOps st0 ops h0⟩
  · simp [ContextStore.create_session, hmem]
  · simp [ContextStore.step, ContextStore.create_session, hmem]

/-- Witness for C7 at a concrete input: creating session `"s"` in the
fixture store that already holds `"s"` returns the error. -/
theorem create_session_duplicate_is_error_witness :
    ContextStore.create_session sampleStore "s" none "t9" =
      .error "Session s already exists" ∧
    ContextStore.step sampleStore (.create "s" none "t9") = sampleStore :=
  ⟨(create_session_duplicate_is_error sampleStore "s" none "t9" sampleContext rfl).1,
   (create_session_duplicate_is_error sampleStore "s" none "t9" sampleContext rfl).2.1⟩

/-- C4 (amended): the message sequence is append-only — `add_message`
appends exactly one message at the back and a batch of appends yields
exactly the ordered append history — and the later label attachments
(`update_sentiment`, `update_intent`) rewrite only the label field of
the LAST message of the session, regardless of that message's sender;
every earlier message is unchanged. -/
theorem messages_append_only_label_attaches_to_last
    (ctx : ConversationContext) (sender text ts sentiment intent : String)
    (conf : Option Rat) (conf2 : Rat) (ms : List Message) (m : Message)
    (hlast : ctx.messages = ms ++ [m]) :
    (ctx.add_message sender text ts).1.messages =
      ctx.messages ++ [{ sender := sender, text := text, timestamp := ts }] ∧
    (ctx.update_sentiment sentiment conf).messages =
      ms ++ [{ m with sentiment_label := some sentiment }] ∧
    (ctx.update_intent intent conf2).messages =
      ms ++ [{ m with intent_label := some intent }] ∧
    (∀ items, (ConversationContext.addMessages ctx items).messages =
      ctx.messages ++ items.map
        (fun it => { sender := it.1, text := it.2.1, timestamp := it.2.2 : Message })) := by
  refine ⟨rfl, ?_, ?_, fun items => addMessages_messages ctx items⟩
  · simp only [ConversationContext.update_sentiment, hlast]
    exact modifyLast_append_singleton _ ms m
  · simp only [ConversationContext.update_intent, hlast]
    exact modifyLast_append_singleton _ ms m

/-- Witness for C4 at a concrete input: labelling the two-message
fixture dialogue attaches the sentiment to its last message. -/
theorem messages_append_only_label_attaches_to_last_witness :
    (sampleDialogue.update_sentiment "NEUTRAL" (some 0)).messages =
      [{ sender := "USER", text := "hi", timestamp := "t1" },
       { sender := "AGENT", text := "hello", timestamp := "t2",
         sentiment_label := some "NEUTRAL" }] :=
  (messages_append_only_label_attaches_to_last sampleDialogue "USER" "x" "t"
    "NEUTRAL" "i" (some 0) 0
    [{ sender := "USER", text := "hi", timestamp := "t1" }]
    { sender := "AGENT", text := "hello", timestamp := "t2" } rfl).2.1

/-- Counterexample for C4 as stated: in a session whose latest USER
message is followed by an AGENT reply, `update_sentiment` attaches the
label to the AGENT reply (the last message overall) and leaves the
most recent USER message — the message that was classified —
unlabelled. -/
theorem label_targets_last_message_counterexample :
    (sampleDialogue.update_sentiment "NEGATIVE" (some 0)).messages.map
        (fun msg => (msg.sender, msg.sentiment_label)) =
      [("USER", none), ("AGENT", some "NEGATIVE")] := by
  rfl

/-- C8: Gate 1 is a pure function of the escalation label set — for an
existing session, a sentiment label inside the set publishes exactly
one `TASK_ESCALATE` event whose reason is `NEGATIVE_SENTIMENT_`
followed by the label (and no intent task), while a label outside the
set publishes exactly one `TASK_RECOGNIZE_INTENT` task (and no
escalation). -/
theorem gate1_escalates_on_label_set (co : CoordinatorAgent) (st : ContextStore)
    (p : SentimentPayload) (ctx : ConversationContext)
    (hget : st.get p.session_id = some ctx) :
    (p.sentiment ∈ SENTIMENT_ESCALATION_LABELS →
      (co.handle_sentiment_result st p).2.2 =
        [{ eventType := "TASK_ESCALATE", sessionId := some p.session_id,
           reason := some ("NEGATIVE_SENTIMENT_" ++ p.sentiment) }]) ∧
    (p.sentiment ∉ SENTIMENT_ESCALATION_LABELS →
      (co.handle_sentiment_result st p).2.2 =
        [{ eventType := "TASK_RECOGNIZE_INTENT", sessionId := some p.session_id }]) := by
  constructor
  · intro hm
    simp [CoordinatorAgent.handle_sentiment_result, hget, hm,
      CoordinatorAgent.escalateSession]
  · intro hm
    simp [CoordinatorAgent.handle_sentiment_result, hget, hm]

/-- Witness for C8 at a concrete input: label `"ANGRY"` on the fixture
session escalates with reason `NEGATIVE_SENTIMENT_ANGRY`. -/
theorem gate1_escalates_on_label_set_witness :
    (CoordinatorAgent.handle_sentiment_result {} sampleStore
        { session_id := "s", sentiment := "ANGRY" }).2.2 =
      [{ eventType := "TASK_ESCALATE", sessionId := some "s",
         reason := some "NEGATIVE_SENTIMENT_ANGRY" }] :=
  (gate1_escalates_on_label_set {} sampleStore
      { session_id := "s", sentiment := "ANGRY" } sampleContext rfl).1 (by decide)

/-- Helper: `handle_resolution` on a session absent from the
active-escalations map returns the state unchanged and publishes
nothing. -/
theorem handle_resolution_not_mem (ag : EscalationAgent) (s op : String)
    (h : assocMem ag.active_escalations s = false) :
    ag.handle_resolution s op = (ag, []) := by
  simp [EscalationAgent.handle_resolution, h]

/-- C9: resolving a session that is not in the active-escalations map
is a pure no-op — the whole agent state (queue included) is unchanged
and nothing is published — and therefore a second resolution of an
already-resolved session is exactly such a harmless no-op, the first
having removed the session from the map. -/
theorem resolution_unknown_session_noop (ag : EscalationAgent) (s op op2 : String) :
    (assocMem ag.active_escalations s = false →
      ag.handle_resolution s op = (ag, [])) ∧
    (assocMem ag.active_escalations s = true →
      assocMem ((ag.handle_resolution s op).1).active_escalations s = false ∧
      ((ag.handle_resolution s op).1).handle_resolution s op2 =
        ((ag.handle_resolution s op).1, [])) := by
  constructor
  · intro h
    exact handle_resolution_not_mem ag s op h
  · intro h
    have h1 : ((ag.handle_resolution s op).1).active_escalations =
        assocRemove ag.active_escalations s := by
      simp [EscalationAgent.handle_resolution, h]
    have h2 : assocMem ((ag.handle_resolution s op).1).active_escalations s = false := by
      rw [h1]
      exact assocMem_assocRemove_self _ _
    exact ⟨h2, handle_resolution_not_mem _ s op2 h2⟩

/-- Witness for C9 at concrete inputs: resolving on the empty agent is
a no-op, and the second of two resolutions of the fixture session is a
no-op. -/
theorem resolution_unknown_session_noop_witness :
    EscalationAgent.handle_resolution {} "s" "op1" = ({}, []) ∧
    ((sampleEscalationAgent.handle_resolution "s" "op1").1).handle_resolution "s" "op2" =
      ((sampleEscalationAgent.handle_resolution "s" "op1").1, []) :=
  ⟨(resolution_unknown_session_noop {} "s" "op1" "op2").1 rfl,
   ((resolution_unknown_session_noop sampleEscalationAgent "s" "op1" "op2").2 rfl).2⟩

/-- C10: resolving a session whose record is still at the front of the
queue (status `QUEUED`, never assigned) removes it from the
active-escalations map but leaves the queue deque untouched, so a
subsequent operator-available event still pops that record and
publishes an assignment of the already-resolved session to the
operator. -/
theorem resolved_queued_session_still_assigned (ag : EscalationAgent)
    (r : EscalationRecord) (rest : List EscalationRecord) (op oid now : String)
    (hq : ag.queue = r :: rest) (hst : r.status = "QUEUED")
    (hmem : assocMem ag.active_escalations r.session_id = true) :
    ((ag.handle_resolution r.session_id op).1).queue = ag.queue ∧
    assocMem ((ag.handle_resolution r.session_id op).1).active_escalations
      r.session_id = false ∧
    (((ag.handle_resolution r.session_id op).1).assign_to_operator oid now).2 =
      [{ eventType := "RESULT_OPERATOR_ASSIGNED", sessionId := some r.session_id,
         reason := some r.reason, assignedFlag := some true }] ∧
    (((ag.handle_resolution r.session_id op).1).assign_to_operator oid now).1.queue =
      rest := by
  have hag1 : (ag.handle_resolution r.session_id op).1 =
      { ag with
        active_escalations := assocRemove ag.active_escalations r.session_id,
        assigned := ag.assigned - 1, resolved := ag.resolved + 1 } := by
    simp [EscalationAgent.handle_resolution, hmem]
  rw [hag1]
  refine ⟨hq ▸ rfl, assocMem_assocRemove_self _ _, ?_, ?_⟩
  · simp [EscalationAgent.assign_to_operator, hq]
  · simp [EscalationAgent.assign_to_operator, hq]

/-- Witness for C10 at a concrete input: resolve the fixture session
`"s"` while it is still queued, then an operator-available event still
assigns `"s"`. -/
theorem resolved_queued_session_still_assigned_witness :
    (((sampleEscalationAgent.handle_resolution "s" "op1").1).assign_to_operator
        "op9" "t9").2 =
      [{ eventType := "RESULT_OPERATOR_ASSIGNED", sessionId := some "s",
         reason := some "LOW_INTENT_CONFIDENCE", assignedFlag := some true }] :=
  (resolved_queued_session_still_assigned sampleEscalationAgent
    { rid := 0, session_id := "s", reason := "LOW_INTENT_CONFIDENCE",
      priority := "NORMAL", escalated_at := "t1", status := "QUEUED",
      queue_position := 1 }
    [] "op1" "op9" "t9" rfl rfl rfl).2.2.1

/-- C5: broker fault isolation — with exactly two handlers subscribed
to a type, the first of which raises (after arbitrary re-entrant bus
calls) and the second of which returns normally, `publish` still
invokes both in order and returns normally, and the delivered and
error counters each increment by exactly one. -/
theorem broker_fault_isolation {η : Type} [DecidableEq η] (bus : EventBus η)
    (run : η → HandlerResult η) (t payload now : String) (h1 h2 : η)
    (acts1 acts2 : List (BusAction η))
    (hsubs : bus.subscribersOf t = [h1, h2])
    (hr1 : run h1 = .raised acts1) (hr2 : run h2 = .ok acts2) :
    (bus.publish run t payload now).2.2 = [h1, h2] ∧
    (bus.publish run t payload now).1.delivered = bus.delivered + 1 ∧
    (bus.publish run t payload now).1.errors = bus.errors + 1 := by
  have hsubs' : ({ bus with published := bus.published + 1 } : EventBus η).subscribersOf t
      = [h1, h2] := hsubs
  have hpub : bus.publish run t payload now =
      (({ bus with published := bus.published + 1 } : EventBus η).deliverTo run [h1, h2],
       { event_type := t, payload := payload, timestamp := now }, [h1, h2]) := by
    simp only [EventBus.publish]
    rw [hsubs']
    rfl
  have hcount : ∀ b : EventBus η,
      (b.deliverTo run [h1, h2]).delivered = b.delivered + 1 ∧
      (b.deliverTo run [h1, h2]).errors = b.errors + 1 := by
    intro b
    have hd : b.deliverTo run [h1, h2] =
        { ({ b.applyActions acts1 with
              errors := (b.applyActions acts1).errors + 1 } : EventBus η).applyActions acts2 with
          delivered := (({ b.applyActions acts1 with
              errors := (b.applyActions acts1).errors + 1 } : EventBus η).applyActions
                acts2).delivered + 1 } := by
      simp [EventBus.deliverTo, hr1, hr2]
    obtain ⟨ad1, ae1, -, -⟩ := applyActions_counters b acts1
    obtain ⟨ad2, ae2, -, -⟩ := applyActions_counters
      ({ b.applyActions acts1 with
          errors := (b.applyActions acts1).errors + 1 } : EventBus η) acts2
    rw [hd]
    constructor
    · show (({ b.applyActions acts1 with
          errors := (b.applyActions acts1).errors + 1 } : EventBus η).applyActions
            acts2).delivered + 1 = b.delivered + 1
      rw [ad2]
      show (b.applyActions acts1).delivered + 1 = b.delivered + 1
      rw [ad1]
    · show (({ b.applyActions acts1 with
          errors := (b.applyActions acts1).errors + 1 } : EventBus η).applyActions
            acts2).errors = b.errors + 1
      rw [ae2]
      show (b.applyActions acts1).errors + 1 = b.errors + 1
      rw [ae1]
  refine ⟨by rw [hpub], ?_, ?_⟩
  · rw [hpub]
    exact (hcount _).1
  · rw [hpub]
    exact (hcount _).2

/-- Witness for C5 at a concrete input: on the fixture bus where
handler `1` raises and handler `2` succeeds, both are invoked and the
counters each increment once. -/
theorem broker_fault_isolation_witness :
    (sampleBus.publish sampleRunFault "T" "p" "t0").2.2 = [1, 2] ∧
    (sampleBus.publish sampleRunFault "T" "p" "t0").1.delivered = 1 ∧
    (sampleBus.publish sampleRunFault "T" "p" "t0").1.errors = 1 :=
  broker_fault_isolation sampleBus sampleRunFault "T" "p" "t0" 1 2 [] []
    (by rfl) (by rfl) (by rfl)

/-- C6: `publish` delivers synchronously to exactly the snapshot of
handlers registered for the type at dispatch, in subscription (FIFO)
order and at most once per registration — for EVERY handler behaviour
`run`, so re-entrant subscribe/unsubscribe calls cannot change the
in-flight invocation list — `subscribe` appends at the back of that
list, the constructed `Event` is returned, and publishing with zero
subscribers is not an error: only the published counter and the
undelivered-event diagnostic counter move. -/
theorem publish_delivers_to_snapshot {η : Type} [DecidableEq η] (bus : EventBus η)
    (run : η → HandlerResult η) (t payload now : String) (subs : List η)
    (hsubs : bus.subscribersOf t = subs) :
    (bus.publish run t payload now).2.2 = subs ∧
    (bus.publish run t payload now).2.1 =
      { event_type := t, payload := payload, timestamp := now } ∧
    (∀ h : η, ((bus.publish run t payload now).2.2).count h = subs.count h) ∧
    (subs.Nodup → ((bus.publish run t payload now).2.2).Nodup) ∧
    (∀ h : η, ((bus.subscribe t h).subscribersOf t) = subs ++ [h]) ∧
    (subs = [] →
      (bus.publish run t payload now).1 =
        { bus with published := bus.published + 1, warnings := bus.warnings + 1 }) := by
  have hsubs' : ({ bus with published := bus.published + 1 } : EventBus η).subscribersOf t
      = subs := hsubs
  have hget : (assocGet bus.subscribers t).getD [] = subs := hsubs
  have hsubscribe : ∀ h : η, ((bus.subscribe t h).subscribersOf t) = subs ++ [h] := by
    intro h
    simp only [EventBus.subscribe, EventBus.subscribersOf]
    rw [assocGet_assocSet_self]
    simp [hget]
  cases subs with
  | nil =>
    have hpub : bus.publish run t payload now =
        ({ bus with published := bus.published + 1, warnings := bus.warnings + 1 },
         { event_type := t, payload := payload, timestamp := now }, []) := by
      simp only [EventBus.publish]
      rw [hsubs']
      rfl
    exact ⟨by rw [hpub], by rw [hpub], fun h => by rw [hpub],
      fun _ => by rw [hpub]; exact List.nodup_nil, hsubscribe, fun _ => by rw [hpub]⟩
  | cons s rest =>
    have hpub : bus.publish run t payload now =
        (({ bus with published := bus.published + 1 } : EventBus η).deliverTo run (s :: rest),
         { event_type := t, payload := payload, timestamp := now }, s :: rest) := by
      simp only [EventBus.publish]
      rw [hsubs']
      rfl
    refine ⟨by rw [hpub], by rw [hpub], fun h => by rw [hpub],
      fun hnd => by rw [hpub]; exact hnd, hsubscribe, fun hcontra => by cases hcontra⟩

/-- Witness for C6 at a concrete input: on the fixture bus, a handler
that unsubscribes its successor and subscribes a newcomer mid-delivery
does not change the in-flight invocation list `[1, 2]`. -/
theorem publish_delivers_to_snapshot_witness :
    (sampleBus.publish sampleRunReentrant "T" "p" "t0").2.2 = [1, 2] :=
  (publish_delivers_to_snapshot sampleBus sampleRunReentrant "T" "p" "t0" [1, 2]
    (by rfl)).1

/-- C1 (amended): for an intent result on an existing session, Gate 2
escalates with reason `LOW_INTENT_CONFIDENCE` exactly when the
confidence is strictly below the threshold (so confidence equal to the
threshold is high enough); below the threshold the handler publishes
exactly that one escalation and nothing else; at or above the
threshold, an intent with a routing entry publishes exactly the one
mapped routing task (no escalation), while an intent without a routing
entry publishes exactly one `UNKNOWN_INTENT` escalation instead of a
routing task. -/
theorem gate2_threshold_boundary (co : CoordinatorAgent) (st : ContextStore)
    (p : IntentPayload) (ctx : ConversationContext)
    (hget : st.get p.session_id = some ctx) :
    ((p.confidence < INTENT_CONFIDENCE_THRESHOLD) ↔
      ∃ e ∈ (co.handle_intent_result st p).2.2,
        e.eventType = "TASK_ESCALATE" ∧ e.reason = some "LOW_INTENT_CONFIDENCE") ∧
    (p.confidence < INTENT_CONFIDENCE_THRESHOLD →
      (co.handle_intent_result st p).2.2 =
        [{ eventType := "TASK_ESCALATE", sessionId := some p.session_id,
           reason := some "LOW_INTENT_CONFIDENCE" }]) ∧
    (INTENT_CONFIDENCE_THRESHOLD ≤ p.confidence →
      ∀ task_name, assocGet INTENT_ROUTING p.intent = some task_name →
        (co.handle_intent_result st p).2.2 =
          [{ eventType := task_name, sessionId := some p.session_id }]) ∧
    (INTENT_CONFIDENCE_THRESHOLD ≤ p.confidence →
      assocGet INTENT_ROUTING p.intent = none →
      (co.handle_intent_result st p).2.2 =
        [{ eventType := "TASK_ESCALATE", sessionId := some p.session_id,
           reason := some "UNKNOWN_INTENT" }]) := by
  by_cases hc : p.confidence < INTENT_CONFIDENCE_THRESHOLD
  · have hout : (co.handle_intent_result st p).2.2 =
        [{ eventType := "TASK_ESCALATE", sessionId := some p.session_id,
           reason := some "LOW_INTENT_CONFIDENCE" }] := by
      simp [CoordinatorAgent.handle_intent_result, hget, hc,
        CoordinatorAgent.escalateSession]
    refine ⟨⟨?_, fun _ => hc⟩, fun _ => hout,
      fun hge => absurd hc (not_lt.2 hge), fun hge => absurd hc (not_lt.2 hge)⟩
    intro _
    refine ⟨{ eventType := "TASK_ESCALATE", sessionId := some p.session_id,
              reason := some "LOW_INTENT_CONFIDENCE" }, ?_, rfl, rfl⟩
    rw [hout]
    exact List.mem_singleton_self _
  · have hge : INTENT_CONFIDENCE_THRESHOLD ≤ p.confidence := not_lt.1 hc
    cases hroute : assocGet INTENT_ROUTING p.intent with
    | none =>
      have hout : (co.handle_intent_result st p).2.2 =
          [{ eventType := "TASK_ESCALATE", sessionId := some p.session_id,
             reason := some "UNKNOWN_INTENT" }] := by
        simp [CoordinatorAgent.handle_intent_result, hget, hc,
          CoordinatorAgent.route_to_agent, hroute, CoordinatorAgent.escalateSession]
      refine ⟨⟨fun hlt => absurd hlt hc, ?_⟩, fun hlt => absurd hlt hc,
        fun _ task htask => ?_, fun _ _ => hout⟩
      · rintro ⟨e, hmem, -, hre⟩
        rw [hout] at hmem
        simp only [List.mem_singleton] at hmem
        subst hmem
        simp at hre
      · exact Option.noConfusion htask
    | some task_name =>
      have hout : (co.handle_intent_result st p).2.2 =
          [{ eventType := task_name, sessionId := some p.session_id }] := by
        simp [CoordinatorAgent.handle_intent_result, hget, hc,
          CoordinatorAgent.route_to_agent, hroute]
      refine ⟨⟨fun hlt => absurd hlt hc, ?_⟩, fun hlt => absurd hlt hc,
        fun _ task htask => ?_, fun _ hnone => ?_⟩
      · rintro ⟨e, hmem, -, hre⟩
        rw [hout] at hmem
        simp only [List.mem_singleton] at hmem
        subst hmem
        simp at hre
      · injection htask with hEq
        subst hEq
        exact hout
      · exact Option.noConfusion hnone

/-- Witness for C1 at a concrete input: confidence exactly `0.7` with a
routable intent publishes the routing task and no escalation. -/
theorem gate2_threshold_boundary_witness :
    (CoordinatorAgent.handle_intent_result {} sampleStore
        { session_id := "s", intent := "track_order", confidence := 7 / 10 }).2.2 =
      [{ eventType := "TASK_HANDLE_ORDER_TRACKING", sessionId := some "s" }] :=
  (gate2_threshold_boundary {} sampleStore
      { session_id := "s", intent := "track_order", confidence := 7 / 10 }
      sampleContext rfl).2.2.1 (le_refl _) "TASK_HANDLE_ORDER_TRACKING" rfl

/-- Counterexample for C1 as stated: at confidence exactly equal to the
threshold but with an intent that has no routing entry, the handler
publishes an escalation (`UNKNOWN_INTENT`) and no routing task at all,
so "confidence equal to the threshold is routed (one routing task
published, no escalation)" fails for this intent-result event. -/
theorem gate2_threshold_boundary_counterexample :
    (CoordinatorAgent.handle_intent_result {} sampleStore
        { session_id := "s", intent := "reset_password", confidence := 7 / 10 }).2.2 =
      [{ eventType := "TASK_ESCALATE", sessionId := some "s",
         reason := some "UNKNOWN_INTENT" }] ∧
    ∀ e ∈ (CoordinatorAgent.handle_intent_result {} sampleStore
        { session_id := "s", intent := "reset_password", confidence := 7 / 10 }).2.2,
      e.eventType ∉ INTENT_ROUTING.map Prod.snd := by
  have hc : ¬ ((7 : Rat) / 10 < INTENT_CONFIDENCE_THRESHOLD) := by
    norm_num [INTENT_CONFIDENCE_THRESHOLD]
  have hout : (CoordinatorAgent.handle_intent_result {} sampleStore
      { session_id := "s", intent := "reset_password", confidence := 7 / 10 }).2.2 =
      [{ eventType := "TASK_ESCALATE", sessionId := some "s",
         reason := some "UNKNOWN_INTENT" }] := by
    simp [CoordinatorAgent.handle_intent_result, CoordinatorAgent.route_to_agent,
      CoordinatorAgent.escalateSession, sampleStore, ContextStore.get, assocGet,
      INTENT_ROUTING, hc]
  refine ⟨hout, ?_⟩
  rw [hout]
  intro e hmem
  simp only [List.mem_singleton] at hmem
  subst hmem
  decide

/-! ## Escalation-queue lemmas -/

theorem nonHighSessions_append (a b : List EscalationRecord) :
    nonHighSessions (a ++ b) = nonHighSessions a ++ nonHighSessions b := by
  induction a with
  | nil => rfl
  | cons r rest ih =>
    by_cases hp : r.priority = "HIGH" <;> simp [nonHighSessions, hp, ih]

theorem runOps_cons (ag : EscalationAgent) (op : EscOp) (rest : List EscOp) :
    ag.runOps (op :: rest) = ((ag.step op).1).runOps rest := rfl

theorem runAssigned_operator_nil (ag : EscalationAgent) (oid now : String)
    (rest : List EscOp) (hq : ag.queue = []) :
    EscalationAgent.runAssigned ag (.operatorAvailable oid now :: rest) =
      EscalationAgent.runAssigned ((ag.step (.operatorAvailable oid now)).1) rest := by
  simp [EscalationAgent.runAssigned, hq]

theorem runAssigned_operator_cons (ag : EscalationAgent) (oid now : String)
    (rest : List EscOp) (r : EscalationRecord) (q : List EscalationRecord)
    (hq : ag.queue = r :: q) :
    EscalationAgent.runAssigned ag (.operatorAvailable oid now :: rest) =
      r :: EscalationAgent.runAssigned ((ag.step (.operatorAvailable oid now)).1) rest := by
  simp [EscalationAgent.runAssigned, hq]

theorem nonHighSessions_cons (r : EscalationRecord) (rs : List EscalationRecord) :
    nonHighSessions (r :: rs) =
      (if r.priority = "HIGH" then [] else [r.session_id]) ++ nonHighSessions rs := by
  by_cases hp : r.priority = "HIGH" <;> simp [nonHighSessions, hp]

/-- The non-`HIGH` records of the queue are served strictly in arrival
order: over any event sequence, the already-assigned non-`HIGH`
sessions followed by the still-queued ones are exactly the initial
queue's non-`HIGH` sessions followed by the arrivals, in order. -/
theorem runAssigned_nonHigh_fifo (ag : EscalationAgent) (ops : List EscOp) :
    nonHighSessions (EscalationAgent.runAssigned ag ops) ++
      nonHighSessions ((ag.runOps ops).queue) =
    nonHighSessions ag.queue ++ arrivalNonHigh ops := by
  induction ops generalizing ag with
  | nil => simp [EscalationAgent.runAssigned, EscalationAgent.runOps,
      arrivalNonHigh, nonHighSessions]
  | cons op rest ih =>
    rw [runOps_cons ag op rest]
    cases op with
    | escalateOp s r p? now =>
      rw [show EscalationAgent.runAssigned ag (.escalateOp s r p? now :: rest) =
        EscalationAgent.runAssigned ((ag.step (.escalateOp s r p? now)).1) rest from rfl]
      rw [ih]
      have hqueue : ((ag.step (.escalateOp s r p? now)).1).queue =
          (if p?.getD "NORMAL" = "HIGH"
            then ({ rid := ag.next_rid, session_id := s, reason := r,
                    priority := p?.getD "NORMAL", escalated_at := now,
                    status := "QUEUED",
                    queue_position := ag.queue.length + 1 } : EscalationRecord)
                  :: ag.queue
            else ag.queue ++
                  [{ rid := ag.next_rid, session_id := s, reason := r,
                     priority := p?.getD "NORMAL", escalated_at := now,
                     status := "QUEUED",
                     queue_position := ag.queue.length + 1 }]) := rfl
      rw [hqueue]
      by_cases hp : p?.getD "NORMAL" = "HIGH"
      · rw [if_pos hp]
        simp [nonHighSessions, arrivalNonHigh, hp]
      · rw [if_neg hp]
        rw [nonHighSessions_append]
        simp [nonHighSessions, arrivalNonHigh, hp, List.append_assoc]
    | operatorAvailable oid now =>
      cases hq : ag.queue with
      | nil =>
        have hstep : (ag.step (.operatorAvailable oid now)).1 = ag := by
          simp [EscalationAgent.step, EscalationAgent.assign_to_operator, hq]
        rw [runAssigned_operator_nil ag oid now rest hq, hstep, ih, hq]
        rfl
      | cons r q =>
        have hstep : ((ag.step (.operatorAvailable oid now)).1).queue = q := by
          simp [EscalationAgent.step, EscalationAgent.assign_to_operator, hq]
        rw [runAssigned_operator_cons ag oid now rest r q hq, nonHighSessions_cons,
          List.append_assoc, ih, hstep]
        rw [show arrivalNonHigh (.operatorAvailable oid now :: rest) =
          arrivalNonHigh rest from rfl, nonHighSessions_cons]
        simp [List.append_assoc]
    | resolveOp s oid =>
      rw [show EscalationAgent.runAssigned ag (.resolveOp s oid :: rest) =
        EscalationAgent.runAssigned ((ag.step (.resolveOp s oid)).1) rest from rfl]
      have hstep : ((ag.step (.resolveOp s oid)).1).queue = ag.queue := by
        simp only [EscalationAgent.step, EscalationAgent.handle_resolution]
        cases hmem : assocMem ag.active_escalations s <;> simp [hmem]
      rw [ih, hstep]
      rfl

/-- C2 (amended): the two-level scheme serves non-`HIGH` records in
strict arrival (FIFO) order over every event sequence, and the
A(NORMAL), B(HIGH), C(NORMAL) example is assigned B, A, C — but
several `HIGH` records enqueued consecutively are assigned in reverse
arrival (LIFO) order, because each `HIGH` enqueue inserts at the very
front of the deque. -/
theorem escalation_queue_two_level_priority (ag : EscalationAgent) (ops : List EscOp) :
    (nonHighSessions (EscalationAgent.runAssigned ag ops) ++
        nonHighSessions ((ag.runOps ops).queue) =
      nonHighSessions ag.queue ++ arrivalNonHigh ops) ∧
    (EscalationAgent.runAssigned {} fifoExampleOps).map (fun rec => rec.session_id) =
      ["B", "A", "C"] ∧
    (EscalationAgent.runAssigned {} [.escalateOp "H1" "rH" (some "HIGH") "t1",
        .escalateOp "H2" "rH" (some "HIGH") "t2",
        .operatorAvailable "op" "t3", .operatorAvailable "op" "t4"]).map
      (fun rec => rec.session_id) = ["H2", "H1"] :=
  ⟨runAssigned_nonHigh_fifo ag ops, by rfl, by rfl⟩

/-- Counterexample for C2 as stated: enqueue sessions `"a"` then `"b"`,
both `HIGH` priority, with no assignment in between; the first
operator-available event assigns `"b"`, not the earlier-arrived `"a"`
— within the `HIGH` priority class the order is not arrival (FIFO)
order. -/
theorem high_priority_assigned_lifo_counterexample :
    (EscalationAgent.runAssigned {} [.escalateOp "a" "rA" (some "HIGH") "t1",
        .escalateOp "b" "rB" (some "HIGH") "t2",
        .operatorAvailable "op" "t3"]).map (fun rec => rec.session_id) = ["b"] := by
  rfl

theorem nodup_assocKeys_assign_map (m : List (String × EscalationRecord))
    (i : Nat) (esc : EscalationRecord) (h : (assocKeys m).Nodup) :
    (assocKeys (m.map
      (fun kv => if kv.2.rid = i then (kv.1, esc) else kv))).Nodup := by
  have heq := assocKeys_map_of_fst_eq m
    (fun kv => if kv.2.rid = i then (kv.1, esc) else kv)
    (fun kv => by by_cases hrid : kv.2.rid = i <;> simp [hrid])
  rw [heq]
  exact h

theorem nodup_active_step (ag : EscalationAgent) (op : EscOp)
    (h : (assocKeys ag.active_escalations).Nodup) :
    (assocKeys ((ag.step op).1).active_escalations).Nodup := by
  cases op with
  | escalateOp s r p? now =>
    exact nodup_assocKeys_assocSet _ _ _ h
  | operatorAvailable oid now =>
    cases hq : ag.queue with
    | nil =>
      simp only [EscalationAgent.step, EscalationAgent.assign_to_operator, hq]
      exact h
    | cons rec q =>
      simp only [EscalationAgent.step, EscalationAgent.assign_to_operator, hq]
      exact nodup_assocKeys_assign_map ag.active_escalations _ _ h
  | resolveOp s oid =>
    simp only [EscalationAgent.step, EscalationAgent.handle_resolution]
    cases hmem : assocMem ag.active_escalations s with
    | false => simpa [hmem] using h
    | true =>
      simp only [hmem]
      simp only [if_pos]
      exact List.Sublist.nodup
        ((assocRemove_sublist ag.active_escalations s).map Prod.fst) h

theorem nodup_active_runOps (ag : EscalationAgent) (ops : List EscOp)
    (h : (assocKeys ag.active_escalations).Nodup) :
    (assocKeys ((ag.runOps ops)).active_escalations).Nodup := by
  induction ops generalizing ag with
  | nil => exact h
  | cons op rest ih => exact runOps_cons ag op rest ▸ ih _ (nodup_active_step ag op h)

/-- C3 (amended): the active-escalations map never holds two records
for the same session id (each new escalation overwrites the map entry
in place), but the queue is NOT deduplicated: a second escalation
request for a session whose record is still outstanding appends a
second outstanding `QUEUED` record for that session to the queue. -/
theorem one_active_escalation_record_per_session (ag : EscalationAgent)
    (ops : List EscOp) (h : (assocKeys ag.active_escalations).Nodup) :
    (assocKeys ((ag.runOps ops)).active_escalations).Nodup ∧
    (EscalationAgent.runOps {} [.escalateOp "s" "r1" none "t1",
        .escalateOp "s" "r2" none "t2"]).queue.length = 2 ∧
    (∀ rec ∈ (EscalationAgent.runOps {} [.escalateOp "s" "r1" none "t1",
        .escalateOp "s" "r2" none "t2"]).queue,
      rec.session_id = "s" ∧ rec.status = "QUEUED") := by
  refine ⟨nodup_active_runOps ag ops h, rfl, ?_⟩
  decide

/-- Witness for C3 at a concrete input: after two escalations the
active-escalations key list is duplicate-free. -/
theorem one_active_escalation_record_per_session_witness :
    (assocKeys ((EscalationAgent.runOps {} [.escalateOp "a" "rA" none "t1",
        .escalateOp "b" "rB" (some "HIGH") "t2"]).active_escalations)).Nodup :=
  (one_active_escalation_record_per_session {}
    [.escalateOp "a" "rA" none "t1", .escalateOp "b" "rB" (some "HIGH") "t2"]
    List.nodup_nil).1

/-- Counterexample for C3 as stated: escalating session `"s"` twice in
a row — the first record still outstanding (`QUEUED`) — leaves TWO
distinct outstanding records for `"s"` in the queue. -/
theorem second_escalation_second_record_counterexample :
    (EscalationAgent.runOps {} [.escalateOp "s" "r1" none "t1",
        .escalateOp "s" "r2" none "t2"]).queue =
      [{ rid := 0, session_id := "s", reason := "r1", priority := "NORMAL",
         escalated_at := "t1", status := "QUEUED", queue_position := 1 },
       { rid := 1, session_id := "s", reason := "r2", priority := "NORMAL",
         escalated_at := "t2", status := "QUEUED", queue_position := 2 }] := by
  rfl

end CustomerSupport
